import Mathlib

/-!
Shallow embedding of `medio/read_save.py`, the dispatch facade of the medio
package, together with theorems about its dispatch contract.

The module under study has three entry points: `read_img`, `save_img` and
`save_dir`.  Each selects one delegated backend operation (nibabel, ITK or
pydicom based), adapts the orientation argument, optionally casts the array
dtype and optionally creates destination directories, then forwards the call.
The delegated backends themselves are external collaborators: here they are
modelled as oracles (`Backends`) for reads, and as the *forwarded call value*
(`WriterCall`, `DcmDirCall`) for writes, so that every theorem speaks about
which backend is invoked and with which adapted arguments.

Machine-level details that the dispatch layer never inspects (pixel values
after a numpy `astype`, the internal shape of a metadata object) are kept
abstract: an array carries a dtype tag and an opaque payload, a metadata
object is an opaque record.  The numpy cast is modelled as retagging the
dtype; value conversion and the `copy=False` aliasing hint are delegated to
numpy and are not observable at this layer.
-/

/-- Axis-direction letters of an orientation code: Right, Left, Anterior,
Posterior, Superior, Inferior. -/
inductive AxCode where
  | R
  | L
  | A
  | P
  | S
  | I
deriving DecidableEq, Repr

/-- An orientation code, e.g. RAS, as a word over the axis-letter alphabet. -/
abbrev Axcodes := List AxCode

/-- Opposite anatomical direction of one axis letter. -/
def oppositeAx : AxCode → AxCode
  | AxCode.R => AxCode.L
  | AxCode.L => AxCode.R
  | AxCode.A => AxCode.P
  | AxCode.P => AxCode.A
  | AxCode.S => AxCode.I
  | AxCode.I => AxCode.S

/-- Modelled from the spec: `medio.metadata.convert_nib_itk.inv_axcodes` is
imported by `read_save.py` but its source is not under `src/`.  The spec
describes it as the orientation-convention converter that relabels each axis
letter of a code to the inverted convention used by the other backend, and
`read_save.py` applies it to a possibly absent (`None`) orientation, so the
absent case passes through. -/
def inv_axcodes : Option Axcodes → Option Axcodes
  | none => none
  | some codes => some (codes.map oppositeAx)

/-- A numpy array as seen by this layer: a dtype tag and an opaque payload.
Pixel contents are never inspected by the dispatch code. -/
structure NpImage where
  dtype : String
  data : List Int
deriving DecidableEq, Repr

/-- Model of `np_image.astype(dtype, copy=False)`: the array handed on now
carries the requested dtype tag; numeric conversion of the payload is numpy's
business and is not modelled. -/
def NpImage.astype (img : NpImage) (d : String) : NpImage :=
  { img with dtype := d }

/-- The `if dtype is not None: np_image = np_image.astype(dtype, copy=False)`
step shared by all three entry points. -/
def applyDtype : Option String → NpImage → NpImage
  | some d, img => img.astype d
  | none, img => img

/-- An opaque per-backend metadata record; the dispatch layer never looks
inside it. -/
structure Metadata where
  val : Nat
deriving DecidableEq, Repr

/-- A filesystem path, as its list of components (the last component is the
file or directory name). -/
abbrev FPath := List String

/-- Modelled from the spec: the NIfTI-family suffix set used by the
classifier `medio.utils.files.is_nifti`, whose source is not under `src/`.
The spec does not enumerate the family; the canonical NIfTI suffixes are
used as representatives. -/
def niftiSuffixes : List String :=
  [".nii", ".nii.gz"]

/-- Does the string end with the given suffix?  Stated over the character
lists so that it evaluates by kernel reduction. -/
def strEndsWith (s tail : String) : Bool :=
  tail.data.isSuffixOf s.data

/-- Does the path's final component carry a NIfTI-family suffix? -/
def hasNiftiSuffix (path : FPath) : Bool :=
  niftiSuffixes.any (fun s => strEndsWith (path.getLastD "") s)

/-- Modelled from the spec: `medio.utils.files.is_nifti` is imported by
`read_save.py` but its source is not under `src/`.  The spec describes the
format sniffer as deciding NIfTI-family membership from the path's suffix and
from existence, with a mode that does not require the file to already exist
for write paths (`is_target_family(path, require_exists)`); `read_save.py`
calls it as `is_nifti(input_path)` for reads and
`is_nifti(filename, check_exist=False)` for writes, so the default mode
requires existence.  Existence is supplied by an oracle `existing`. -/
def is_nifti (existing : FPath → Bool) (path : FPath) (check_exist : Bool) : Bool :=
  hasNiftiSuffix path && (!check_exist || existing path)

/-- Read oracles for the three backend reader operations.  `nibRead` and
`itkRead` take `(input_path, desired_ornt, header, channels_axis)`;
`pdcmRead` takes `(input_path, header, channels_axis)`, mirroring the call
shapes on lines 48-51 of `read_save.py`. -/
structure Backends where
  nibRead : FPath → Option Axcodes → Bool → Int → NpImage × Metadata
  itkRead : FPath → Option Axcodes → Bool → Int → NpImage × Metadata
  pdcmRead : FPath → Bool → Int → NpImage × Metadata

/-- The reader chosen by `read_img` (the local variables `nib_reader`,
`itk_reader`, `pdcm_reader` of the source). -/
inductive Reader where
  | nib_reader
  | itk_reader
  | pdcm_reader
deriving DecidableEq, Repr

/-- Errors raised by `read_img`: `ValueError` for an unrecognized backend
token, `NotImplementedError` for a reorientation request with the pydicom
backend. -/
inductive ReadErr where
  | valueError
  | notImplementedError
deriving DecidableEq, Repr

/-- Backend selection of `read_img` (lines 27-43 of `read_save.py`): with no
explicit backend the NIfTI test picks nibabel or ITK; an explicit token must
be one of the accepted literals, and the pydicom token additionally rejects a
non-None desired orientation before any reader is invoked. -/
def selectReader (existing : FPath → Bool) (input_path : FPath) (backend : Option String)
    (desired_ornt : Option Axcodes) : Except ReadErr Reader :=
  match backend with
  | none =>
    if is_nifti existing input_path true then Except.ok Reader.nib_reader
    else Except.ok Reader.itk_reader
  | some b =>
    if b = "nib" then Except.ok Reader.nib_reader
    else if b = "itk" then Except.ok Reader.itk_reader
    else if b = "pdcm" ∨ b = "pydicom" then
      match desired_ornt with
      | some _ => Except.error ReadErr.notImplementedError
      | none => Except.ok Reader.pdcm_reader
    else Except.error ReadErr.valueError

/-- Model of `read_img` (lines 10-55 of `read_save.py`): select a reader,
convert the desired orientation when the nibabel reader was chosen, invoke
the reader with the call shape the source uses, then apply the optional dtype
cast and return the array with the backend's metadata. -/
def read_img (B : Backends) (existing : FPath → Bool) (input_path : FPath)
    (desired_ornt : Option Axcodes) (backend : Option String) (dtype : Option String)
    (header : Bool) (channels_axis : Int) : Except ReadErr (NpImage × Metadata) :=
  match selectReader existing input_path backend desired_ornt with
  | Except.error e => Except.error e
  | Except.ok reader =>
    let desired_ornt := if reader = Reader.nib_reader then inv_axcodes desired_ornt else desired_ornt
    let res :=
      if reader = Reader.pdcm_reader then
        B.pdcmRead input_path header channels_axis
      else if reader = Reader.nib_reader then
        B.nibRead input_path desired_ornt header channels_axis
      else
        B.itkRead input_path desired_ornt header channels_axis
    Except.ok (applyDtype dtype res.1, res.2)

/-- The raw `(array, metadata)` pair a given reader produces for the original
(pre-conversion) desired orientation; used to state what `read_img` returns
relative to the backend it selected. -/
def rawRead (B : Backends) (r : Reader) (input_path : FPath) (desired_ornt : Option Axcodes)
    (header : Bool) (channels_axis : Int) : NpImage × Metadata :=
  match r with
  | Reader.nib_reader => B.nibRead input_path (inv_axcodes desired_ornt) header channels_axis
  | Reader.itk_reader => B.itkRead input_path desired_ornt header channels_axis
  | Reader.pdcm_reader => B.pdcmRead input_path header channels_axis

/-- The writer chosen by `save_img` (the local variables `nib_writer`,
`itk_writer` of the source). -/
inductive ImgWriter where
  | nib_writer
  | itk_writer
deriving DecidableEq, Repr

/-- Errors raised by `save_img`: `ValueError` for an unrecognized backend
token, `FileNotFoundError` from `Path.mkdir` when the needed ancestor is
missing and `parents=False`. -/
inductive SaveErr where
  | valueError
  | fileNotFoundError
deriving DecidableEq, Repr

/-- The delegated write call issued by `save_img`: which writer, and with
which (possibly dtype-cast) arguments. -/
structure WriterCall where
  writer : ImgWriter
  filename : FPath
  np_image : NpImage
  metadata : Metadata
  use_original_ornt : Bool
  channels_axis : Option Int
deriving DecidableEq, Repr

/-- Backend selection of `save_img` (lines 74-85 of `read_save.py`): with no
explicit backend the NIfTI test in no-existence-required mode picks nibabel
or ITK; an explicit token must be one of the two accepted literals. -/
def selectWriter (existing : FPath → Bool) (filename : FPath) (backend : Option String) :
    Except SaveErr ImgWriter :=
  match backend with
  | none =>
    if is_nifti existing filename false then Except.ok ImgWriter.nib_writer
    else Except.ok ImgWriter.itk_writer
  | some b =>
    if b = "nib" then Except.ok ImgWriter.nib_writer
    else if b = "itk" then Except.ok ImgWriter.itk_writer
    else Except.error SaveErr.valueError

/-- A filesystem state: the set of directories that exist, as a list.  The
empty path (the root / current directory) always exists. -/
structure FileSys where
  dirs : List FPath
deriving DecidableEq, Repr

/-- Does directory `d` exist in `fs`? -/
def FileSys.hasDir (fs : FileSys) (d : FPath) : Bool :=
  d.isEmpty || decide (d ∈ fs.dirs)

/-- Parent directory of a path (`Path(filename).parent`). -/
def parentDir (p : FPath) : FPath :=
  p.dropLast

/-- Failures of `Path.mkdir`: the target already exists (suppressed when
`exist_ok=True`) or its parent is missing (when `parents=False`). -/
inductive FsError where
  | fileExists
  | fileNotFound
deriving DecidableEq, Repr

/-- Model of `pathlib.Path.mkdir(parents=..., exist_ok=...)` on the
directory-set filesystem: an existing target errors unless `exist_ok`;
otherwise with `parents` every prefix of the target is created, and without
`parents` the target is created only when its parent exists. -/
def fsMkdir (fs : FileSys) (d : FPath) (parents : Bool) (exist_ok : Bool) :
    Except FsError FileSys :=
  if fs.hasDir d then
    if exist_ok then Except.ok fs else Except.error FsError.fileExists
  else if parents then
    Except.ok ⟨fs.dirs ++ d.inits⟩
  else if fs.hasDir (parentDir d) then
    Except.ok ⟨d :: fs.dirs⟩
  else
    Except.error FsError.fileNotFound

/-- Ancestor-closure well-formedness of a filesystem state: every prefix of
an existing directory exists.  Any state reachable from the empty state by
`fsMkdir` satisfies it; it is phrased over `inits` so it is decidable on
concrete states. -/
def FileSys.closed (fs : FileSys) : Prop :=
  ∀ d ∈ fs.dirs, ∀ p ∈ d.inits, fs.hasDir p = true

/-- Model of `save_img` (lines 58-90 of `read_save.py`): select a writer
(raising `ValueError` on a bad token, before any filesystem mutation), then
if `mkdir` create the parent directory with `exist_ok=True`, then apply the
optional dtype cast and forward the write.  The result pairs the filesystem
state at the moment the writer is invoked with the forwarded call, or with
the error when one was raised (in which case the filesystem is returned
untouched). -/
def save_img (existing : FPath → Bool) (fs : FileSys) (filename : FPath) (np_image : NpImage)
    (metadata : Metadata) (use_original_ornt : Bool) (backend : Option String)
    (dtype : Option String) (channels_axis : Option Int) (mkdir : Bool) (parents : Bool) :
    FileSys × Except SaveErr WriterCall :=
  match selectWriter existing filename backend with
  | Except.error e => (fs, Except.error e)
  | Except.ok writer =>
    match (if mkdir then fsMkdir fs (parentDir filename) parents true else Except.ok fs) with
    | Except.error _ => (fs, Except.error SaveErr.fileNotFoundError)
    | Except.ok fs2 =>
      let np_image := applyDtype dtype np_image
      (fs2, Except.ok ⟨writer, filename, np_image, metadata, use_original_ornt, channels_axis⟩)

/-- The three backend modules of the package: `NibIO`, `ItkIO`, `PdcmIO`. -/
inductive BackendModule where
  | nibModule
  | itkModule
  | pdcmModule
deriving DecidableEq, Repr

/-- The module each reader operation belongs to; in particular the
DICOM-series backend (the one selected by the pdcm and pydicom tokens) is
`pdcmModule`. -/
def Reader.module : Reader → BackendModule
  | Reader.nib_reader => BackendModule.nibModule
  | Reader.itk_reader => BackendModule.itkModule
  | Reader.pdcm_reader => BackendModule.pdcmModule

/-- The delegated directory-write call issued by `save_dir`: which backend
module's `save_dcm_dir` operation, and with which arguments. -/
structure DcmDirCall where
  module : BackendModule
  dirname : FPath
  np_image : NpImage
  metadata : Metadata
  use_original_ornt : Bool
  channels_axis : Option Int
  parents : Bool
  allow_dcm_reorient : Bool
deriving DecidableEq, Repr

/-- Model of `save_dir` (lines 93-100 of `read_save.py`): apply the optional
dtype cast and forward unconditionally to `ItkIO.save_dcm_dir`.  The entry
point has no backend argument. -/
def save_dir (dirname : FPath) (np_image : NpImage) (metadata : Metadata)
    (use_original_ornt : Bool) (dtype : Option String) (channels_axis : Option Int)
    (parents : Bool) (allow_dcm_reorient : Bool) : DcmDirCall :=
  let np_image := applyDtype dtype np_image
  ⟨BackendModule.itkModule, dirname, np_image, metadata, use_original_ornt, channels_axis,
    parents, allow_dcm_reorient⟩

/-- Concrete array used to instantiate theorems on concrete inputs. -/
def img0 : NpImage :=
  ⟨"int16", [7]⟩

/-- Concrete metadata record used to instantiate theorems on concrete
inputs. -/
def md0 : Metadata :=
  ⟨0⟩

/-- Concrete backend read oracles used to instantiate theorems: each reader
returns a distinct recognizable pair. -/
def testBackends : Backends :=
  ⟨fun _ _ _ _ => (⟨"uint8", [1]⟩, ⟨1⟩),
   fun _ _ _ _ => (⟨"uint8", [2]⟩, ⟨2⟩),
   fun _ _ _ => (⟨"uint8", [3]⟩, ⟨3⟩)⟩

lemma oppositeAx_oppositeAx (c : AxCode) : oppositeAx (oppositeAx c) = c := by
  cases c <;> rfl

/-- C9: the orientation-convention conversion is an involution: applying
`inv_axcodes` twice yields the original code, for every orientation code over
the supported axis-letter alphabet (and for the absent orientation). -/
theorem inv_axcodes_involutive (o : Option Axcodes) :
    inv_axcodes (inv_axcodes o) = o := by
  cases o with
  | none => rfl
  | some codes =>
    simp only [inv_axcodes, List.map_map, Option.some.injEq]
    have : (oppositeAx ∘ oppositeAx) = id := by
      funext c
      simp [Function.comp, oppositeAx_oppositeAx]
    rw [this, List.map_id]

/-- C2: with the DICOM selector (pdcm or pydicom) and a non-None desired
orientation, `read_img` raises the not-supported error, uniformly in the
backend oracles (so before any backend I/O is attempted); with desired
orientation None it forwards to the pydicom reader and raises nothing. -/
theorem read_img_pdcm_reorient_raises (B : Backends) (existing : FPath → Bool)
    (input_path : FPath) (o : Axcodes) (dtype : Option String) (header : Bool)
    (channels_axis : Int) (b : String) (hb : b = "pdcm" ∨ b = "pydicom") :
    read_img B existing input_path (some o) (some b) dtype header channels_axis =
      Except.error ReadErr.notImplementedError ∧
    read_img B existing input_path none (some b) dtype header channels_axis =
      Except.ok (applyDtype dtype (B.pdcmRead input_path header channels_axis).1,
        (B.pdcmRead input_path header channels_axis).2) := by
  rcases hb with h | h <;> subst h <;> exact ⟨rfl, rfl⟩

/-- Concrete instance of the C2 theorem at the token pdcm and the
orientation RAS. -/
theorem read_img_pdcm_reorient_raises_witness :
    read_img testBackends (fun _ => true) ["series"]
        (some [AxCode.R, AxCode.A, AxCode.S]) (some "pdcm") none false (-1) =
      Except.error ReadErr.notImplementedError := by
  exact (read_img_pdcm_reorient_raises testBackends (fun _ => true) ["series"]
    [AxCode.R, AxCode.A, AxCode.S] none false (-1) "pdcm" (Or.inl rfl)).1

/-- C3: an unrecognized backend token makes `read_img` raise ValueError,
uniformly in the backend oracles, and makes `save_img` return ValueError with
the filesystem untouched and no writer call, even when mkdir was
requested. -/
theorem bad_backend_rejected (B : Backends) (existing : FPath → Bool) (input_path : FPath)
    (o : Option Axcodes) (dtype : Option String) (header : Bool) (channels_axis : Int)
    (fs : FileSys) (filename : FPath) (np_image : NpImage) (metadata : Metadata)
    (use_original_ornt : Bool) (ch : Option Int) (mkdir parents : Bool) (b : String) :
    (¬(b = "nib" ∨ b = "itk" ∨ b = "pdcm" ∨ b = "pydicom") →
      read_img B existing input_path o (some b) dtype header channels_axis =
        Except.error ReadErr.valueError) ∧
    (¬(b = "nib" ∨ b = "itk") →
      save_img existing fs filename np_image metadata use_original_ornt (some b) dtype ch
        mkdir parents = (fs, Except.error SaveErr.valueError)) := by
  constructor
  · intro hr
    push_neg at hr
    simp [read_img, selectReader, hr.1, hr.2.1, hr.2.2.1, hr.2.2.2]
  · intro hw
    push_neg at hw
    simp [save_img, selectWriter, hw.1, hw.2]

/-- Concrete instance of the C3 theorem at the token bogus, with directory
creation requested. -/
theorem bad_backend_rejected_witness :
    read_img testBackends (fun _ => true) ["a.nii"] none (some "bogus") none false (-1) =
      Except.error ReadErr.valueError ∧
    save_img (fun _ => true) ⟨[]⟩ ["a.nii"] img0 md0 true (some "bogus") none none true true =
      (⟨[]⟩, Except.error SaveErr.valueError) := by
  have h := bad_backend_rejected testBackends (fun _ => true) ["a.nii"] none none false (-1)
    ⟨[]⟩ ["a.nii"] img0 md0 true none true true "bogus"
  exact ⟨h.1 (by decide), h.2 (by decide)⟩

/-- C4: whenever `read_img`'s selection resolves to the nibabel reader, the
desired orientation forwarded to it is the `inv_axcodes` conversion of the
requested one; whenever it resolves to the ITK reader, the requested
orientation is forwarded unchanged. -/
theorem read_img_ornt_adaptation (B : Backends) (existing : FPath → Bool) (input_path : FPath)
    (o : Option Axcodes) (backend : Option String) (dtype : Option String) (header : Bool)
    (channels_axis : Int) :
    (selectReader existing input_path backend o = Except.ok Reader.nib_reader →
      read_img B existing input_path o backend dtype header channels_axis =
        Except.ok
          (applyDtype dtype (B.nibRead input_path (inv_axcodes o) header channels_axis).1,
            (B.nibRead input_path (inv_axcodes o) header channels_axis).2)) ∧
    (selectReader existing input_path backend o = Except.ok Reader.itk_reader →
      read_img B existing input_path o backend dtype header channels_axis =
        Except.ok (applyDtype dtype (B.itkRead input_path o header channels_axis).1,
          (B.itkRead input_path o header channels_axis).2)) := by
  constructor <;> intro h <;> simp [read_img, h]

/-- Concrete instance of the C4 theorem with the explicit nib token: the
oracle receives the converted orientation. -/
theorem read_img_ornt_adaptation_witness :
    read_img testBackends (fun _ => true) ["a"] (some [AxCode.R]) (some "nib") none false (-1) =
      Except.ok (⟨"uint8", [1]⟩, ⟨1⟩) := by
  exact ((read_img_ornt_adaptation testBackends (fun _ => true) ["a"] (some [AxCode.R])
    (some "nib") none false (-1)).1 rfl).trans rfl

/-- C5 fails as stated for `read_img`: the path im.nii carries a NIfTI-family
suffix, yet when the path does not exist the default existence-requiring
NIfTI test fails, and read dispatch with backend None selects the ITK reader
rather than the nibabel reader. -/
theorem suffix_only_read_selection_counterexample :
    hasNiftiSuffix ["im.nii"] = true ∧
    selectReader (fun _ => false) ["im.nii"] none none = Except.ok Reader.itk_reader :=
  ⟨rfl, rfl⟩

/-- C5 amended: with backend None, `read_img` selects the nibabel reader
exactly when the NIfTI test passes in its default existence-requiring mode
(the suffix matches and the path exists) and the ITK reader otherwise, while
`save_img` selects the nibabel writer exactly when the suffix matches,
the test being run in the mode that does not require the file to exist. -/
theorem default_backend_selection (existing : FPath → Bool) (path : FPath)
    (o : Option Axcodes) :
    selectReader existing path none o =
      Except.ok (if hasNiftiSuffix path && existing path then Reader.nib_reader
        else Reader.itk_reader) ∧
    selectWriter existing path none =
      Except.ok (if hasNiftiSuffix path then ImgWriter.nib_writer
        else ImgWriter.itk_writer) := by
  constructor
  · cases h : (hasNiftiSuffix path && existing path) <;>
      simp [selectReader, is_nifti, h]
  · cases h : hasNiftiSuffix path <;>
      simp [selectWriter, is_nifti, h]

/-- C10: an explicit backend token fully overrides suffix classification:
the nib and itk tokens select their backend regardless of the path, and with
any explicit token both entry points are independent of the existence oracle
that the NIfTI suffix test would consult, so the test only matters when
backend is None. -/
theorem explicit_backend_overrides (B : Backends) (existing existing' : FPath → Bool)
    (path : FPath) (o : Option Axcodes) (dtype : Option String) (header : Bool)
    (channels_axis : Int) (fs : FileSys) (np_image : NpImage) (metadata : Metadata)
    (uo : Bool) (ch : Option Int) (mkdir parents : Bool) :
    selectReader existing path (some "nib") o = Except.ok Reader.nib_reader ∧
    selectReader existing path (some "itk") o = Except.ok Reader.itk_reader ∧
    selectWriter existing path (some "nib") = Except.ok ImgWriter.nib_writer ∧
    selectWriter existing path (some "itk") = Except.ok ImgWriter.itk_writer ∧
    (∀ b : String,
      read_img B existing path o (some b) dtype header channels_axis =
        read_img B existing' path o (some b) dtype header channels_axis) ∧
    (∀ b : String,
      save_img existing fs path np_image metadata uo (some b) dtype ch mkdir parents =
        save_img existing' fs path np_image metadata uo (some b) dtype ch mkdir parents) :=
  ⟨rfl, rfl, rfl, rfl, fun _ => rfl, fun _ => rfl⟩

lemma fsMkdir_of_hasDir {fs : FileSys} {d : FPath} (parents : Bool)
    (h : fs.hasDir d = true) : fsMkdir fs d parents true = Except.ok fs := by
  simp [fsMkdir, h]

lemma fsMkdir_ok_hasDir {fs : FileSys} {d : FPath} {parents : Bool} {fs2 : FileSys}
    (h : fsMkdir fs d parents true = Except.ok fs2) : fs2.hasDir d = true := by
  unfold fsMkdir at h
  by_cases h1 : fs.hasDir d = true
  · rw [if_pos h1] at h
    simp at h
    exact h ▸ h1
  · rw [if_neg h1] at h
    cases parents with
    | true =>
      simp at h
      subst h
      cases d with
      | nil => rfl
      | cons a as =>
        simp [FileSys.hasDir, List.mem_inits]
    | false =>
      simp at h
      by_cases h2 : fs.hasDir (parentDir d) = true
      · rw [if_pos h2] at h
        simp at h
        subst h
        simp [FileSys.hasDir]
      · rw [if_neg h2] at h
        simp at h

lemma fsMkdir_parents_inits {fs : FileSys} {d : FPath} {fs2 : FileSys}
    (hcl : fs.closed) (h : fsMkdir fs d true true = Except.ok fs2) :
    ∀ p ∈ d.inits, fs2.hasDir p = true := by
  intro p hp
  unfold fsMkdir at h
  by_cases h1 : fs.hasDir d = true
  · rw [if_pos h1] at h
    simp at h
    subst h
    rw [FileSys.hasDir, Bool.or_eq_true] at h1
    rcases h1 with h1 | h1
    · have : d = [] := List.isEmpty_iff.mp (by exact h1)
      subst this
      simp at hp
      subst hp
      rfl
    · exact hcl d (by simpa using h1) p hp
  · rw [if_neg h1, if_pos rfl] at h
    simp at h
    subst h
    simp [FileSys.hasDir, hp]


lemma save_img_ok_inv {existing : FPath → Bool} {fs : FileSys} {filename : FPath}
    {np_image : NpImage} {metadata : Metadata} {uo : Bool} {backend : Option String}
    {dtype : Option String} {ch : Option Int} {mkdir parents : Bool} {fs2 : FileSys}
    {call : WriterCall}
    (h : save_img existing fs filename np_image metadata uo backend dtype ch mkdir parents =
      (fs2, Except.ok call)) :
    (∃ w, selectWriter existing filename backend = Except.ok w ∧
      call = ⟨w, filename, applyDtype dtype np_image, metadata, uo, ch⟩) ∧
    (if mkdir then fsMkdir fs (parentDir filename) parents true else Except.ok fs) =
      Except.ok fs2 := by
  unfold save_img at h
  cases hw : selectWriter existing filename backend with
  | error e =>
    rw [hw] at h
    simp at h
  | ok w =>
    rw [hw] at h
    cases hm : (if mkdir then fsMkdir fs (parentDir filename) parents true else Except.ok fs) with
    | error e2 =>
      rw [hm] at h
      simp at h
    | ok fs3 =>
      rw [hm] at h
      simp only [Prod.mk.injEq, Except.ok.injEq] at h
      obtain ⟨h1, h2⟩ := h
      subst h1
      exact ⟨⟨w, rfl, h2.symm⟩, rfl⟩

/-- C6: the optional dtype cast happens before the delegated write: every
writer call `save_img` forwards carries exactly the requested dtype when one
was given, whatever the input array's dtype was, and the unmodified array
when dtype is None; likewise for the directory-write call `save_dir`
forwards. -/
theorem save_dtype_cast (existing : FPath → Bool) (fs : FileSys) (filename : FPath)
    (np_image : NpImage) (metadata : Metadata) (uo : Bool) (backend : Option String)
    (ch : Option Int) (mkdir parents : Bool) (t : String) (dirname : FPath)
    (ch2 : Option Int) (par2 al : Bool) :
    (∀ fs2 call,
      save_img existing fs filename np_image metadata uo backend (some t) ch mkdir parents =
        (fs2, Except.ok call) → call.np_image.dtype = t) ∧
    (∀ fs2 call,
      save_img existing fs filename np_image metadata uo backend none ch mkdir parents =
        (fs2, Except.ok call) → call.np_image = np_image) ∧
    (save_dir dirname np_image metadata uo (some t) ch2 par2 al).np_image.dtype = t ∧
    (save_dir dirname np_image metadata uo none ch2 par2 al).np_image = np_image := by
  refine ⟨?_, ?_, rfl, rfl⟩ <;> intro fs2 call h <;>
    obtain ⟨⟨w, hw, hc⟩, -⟩ := save_img_ok_inv h <;> subst hc <;> rfl

/-- Concrete instance of the C6 theorem: a float32 request on an int16 array
reaches the writer retagged as float32. -/
theorem save_dtype_cast_witness :
    (⟨ImgWriter.nib_writer, ["a.nii"], NpImage.astype img0 "float32", md0, true, none⟩ :
      WriterCall).np_image.dtype = "float32" := by
  exact (save_dtype_cast (fun _ => true) ⟨[]⟩ ["a.nii"] img0 md0 true none none false false
    "float32" [] none false false).1 ⟨[]⟩
    ⟨ImgWriter.nib_writer, ["a.nii"], NpImage.astype img0 "float32", md0, true, none⟩ rfl

/-- C7: with directory creation requested, every write `save_img` forwards is
paired with a filesystem state already containing the destination's parent
directory, and all ancestors of the parent when parents was also set (from an
ancestor-closed starting state); and when the parent directory already exists
the creation does not fail: with an accepted backend token the call still
forwards the write, leaving the filesystem unchanged. -/
theorem save_img_mkdir_creates_parent (existing : FPath → Bool) (fs : FileSys)
    (filename : FPath) (np_image : NpImage) (metadata : Metadata) (uo : Bool)
    (backend : Option String) (dtype : Option String) (ch : Option Int) (parents : Bool)
    (hcl : fs.closed) :
    (∀ fs2 call,
      save_img existing fs filename np_image metadata uo backend dtype ch true parents =
        (fs2, Except.ok call) →
      fs2.hasDir (parentDir filename) = true ∧
      (parents = true → ∀ p ∈ (parentDir filename).inits, fs2.hasDir p = true)) ∧
    (∀ w, selectWriter existing filename backend = Except.ok w →
      fs.hasDir (parentDir filename) = true →
      save_img existing fs filename np_image metadata uo backend dtype ch true parents =
        (fs, Except.ok ⟨w, filename, applyDtype dtype np_image, metadata, uo, ch⟩)) := by
  constructor
  · intro fs2 call h
    obtain ⟨-, hm⟩ := save_img_ok_inv h
    rw [if_pos rfl] at hm
    refine ⟨fsMkdir_ok_hasDir hm, ?_⟩
    intro hp
    subst hp
    exact fsMkdir_parents_inits hcl hm
  · intro w hw hdir
    simp [save_img, hw, fsMkdir_of_hasDir parents hdir]

/-- Concrete instance of the C7 theorem: creating a missing parent directory
with parents set, from the empty filesystem, yields a write-time state
containing that parent. -/
theorem save_img_mkdir_creates_parent_witness :
    FileSys.hasDir ⟨[([] : FPath), ["a"]]⟩ ["a"] = true := by
  have h := (save_img_mkdir_creates_parent (fun _ => true) ⟨[]⟩ ["a", "b.nii"] img0 md0 true
    none none none true (by intro d hd; simp at hd)).1
    ⟨[([] : FPath), ["a"]]⟩ ⟨ImgWriter.nib_writer, ["a", "b.nii"], img0, md0, true, none⟩ rfl
  exact h.1

/-- C8: every successful `read_img` call returns the selected backend's
metadata object unchanged, and the backend's array modified only by the
optional dtype cast, the cast being skipped when dtype is None. -/
theorem read_img_returns_backend_result (B : Backends) (existing : FPath → Bool)
    (input_path : FPath) (o : Option Axcodes) (backend : Option String)
    (dtype : Option String) (header : Bool) (channels_axis : Int) (img : NpImage)
    (md : Metadata)
    (h : read_img B existing input_path o backend dtype header channels_axis =
      Except.ok (img, md)) :
    ∃ r, selectReader existing input_path backend o = Except.ok r ∧
      md = (rawRead B r input_path o header channels_axis).2 ∧
      img = applyDtype dtype (rawRead B r input_path o header channels_axis).1 ∧
      (dtype = none → img = (rawRead B r input_path o header channels_axis).1) := by
  unfold read_img at h
  cases hs : selectReader existing input_path backend o with
  | error e =>
    rw [hs] at h
    simp at h
  | ok r =>
    rw [hs] at h
    have h' : (applyDtype dtype (rawRead B r input_path o header channels_axis).1,
        (rawRead B r input_path o header channels_axis).2) = (img, md) := by
      cases r <;> exact Except.ok.inj h
    rw [Prod.mk.injEq] at h'
    refine ⟨r, rfl, h'.2.symm, h'.1.symm, ?_⟩
    intro hd
    subst hd
    exact h'.1.symm

/-- Concrete instance of the C8 theorem on a successful ITK-backend read. -/
theorem read_img_returns_backend_result_witness :
    ∃ r, selectReader (fun _ => true) ["a"] (some "itk") none = Except.ok r ∧
      (⟨2⟩ : Metadata) = (rawRead testBackends r ["a"] none false (-1)).2 ∧
      (⟨"uint8", [2]⟩ : NpImage) =
        applyDtype none (rawRead testBackends r ["a"] none false (-1)).1 ∧
      ((none : Option String) = none →
        (⟨"uint8", [2]⟩ : NpImage) = (rawRead testBackends r ["a"] none false (-1)).1) :=
  read_img_returns_backend_result testBackends (fun _ => true) ["a"] none (some "itk") none
    false (-1) ⟨"uint8", [2]⟩ ⟨2⟩ rfl

/-- C1 as stated is false: `save_dir` does not forward to the DICOM-series
backend (the module of the pdcm reader); at this concrete call the forwarded
directory-writing operation belongs to the ITK backend module, mirroring the
`ItkIO.save_dcm_dir` call on line 99 of `read_save.py`. -/
theorem save_dir_backend_counterexample :
    (save_dir ["out"] img0 md0 true none none false false).module ≠
      Reader.pdcm_reader.module := by
  decide

/-- C1 amended: for every call, `save_dir` applies the optional dtype cast
and forwards unconditionally to the ITK backend module's
DICOM-directory-writing operation (`ItkIO.save_dcm_dir`), passing every other
argument through; the entry point offers no backend-selection argument. -/
theorem save_dir_forwards_to_itk (dirname : FPath) (np_image : NpImage) (metadata : Metadata)
    (uo : Bool) (dtype : Option String) (ch : Option Int) (parents al : Bool) :
    save_dir dirname np_image metadata uo dtype ch parents al =
      ⟨BackendModule.itkModule, dirname, applyDtype dtype np_image, metadata, uo, ch,
        parents, al⟩ :=
  rfl
